import Mathlib

/-!
# Verification of the metadata-capture record store, validation engine,
# registry correlation subsystem and streaming result correlator

Shallow embedding of the Python sources under `src/agent/` (the SQLite-backed
record graph store `tools/metadata_store.py` together with the table
definitions of `db/models.py` and the HTTP boundary of `server.py`, the
validation engine `validation.py`, the registry-correlation helpers of
`tools/capture_mcp.py`, and the validation-event drain loop of `service.py`),
with theorems settling the behavioural claims about them.

JSON documents (record `data_json` payloads) are modelled by the inductive
type `JVal`; Python dictionaries are association lists in insertion order,
matching Python's ordered-dict semantics. Machine-level concerns (SQLite
storage encoding, uuid generation, wall-clock time) are abstracted: generated
ids and timestamps are explicit parameters of the operations that consume
them.
-/

/-- A JSON value as stored in `data_json` / passed around as Python data.
Python `None` is `JVal.null`; JSON numerals are modelled as integers (no claim
exercises fractional numerics). -/
inductive JVal where
  | null
  | bool (b : Bool)
  | num (n : Int)
  | str (s : String)
  | arr (xs : List JVal)
  | obj (kvs : List (String × JVal))
deriving Repr

/-- Python truthiness (`bool(v)`) of a JSON value: `None`, `False`, `0`, `""`,
`[]` and `{}` are falsy. -/
def truthy : JVal → Bool
  | .null => false
  | .bool b => b
  | .num n => n != 0
  | .str s => s != ""
  | .arr xs => !xs.isEmpty
  | .obj kvs => !kvs.isEmpty

/-- First binding of a key in an association-list dictionary (Python dicts
have unique keys; lookup returns the stored value). -/
def pyLookup (kvs : List (String × JVal)) (k : String) : Option JVal :=
  match kvs.find? (fun kv => kv.1 == k) with
  | some kv => some kv.2
  | none => none

/-- Python `d.get(k)`: the stored value, or `None` when the key is absent. -/
def pyGet (kvs : List (String × JVal)) (k : String) : JVal :=
  (pyLookup kvs k).getD .null

/-- Python `d.get(k, default)`: the default applies only when the key is
absent (a stored `None` is returned as `None`, not replaced). -/
def pyGetD (kvs : List (String × JVal)) (k : String) (dflt : JVal) : JVal :=
  (pyLookup kvs k).getD dflt

/-- Python `{**old, **new}`: keys of `old` keep their position with values
overridden by `new` where present; keys only in `new` are appended in `new`'s
order. This is the shallow merge performed by `update_record`
(`metadata_store.py` line 134). -/
def dictMerge (old new : List (String × JVal)) : List (String × JVal) :=
  (old.map fun kv => (kv.1, (pyLookup new kv.1).getD kv.2))
    ++ new.filter (fun kv => (pyLookup old kv.1).isNone)

/-- The whitespace characters stripped by Python `str.strip()` (ASCII). -/
def isPySpace (c : Char) : Bool :=
  c == ' ' || c == '\t' || c == '\n' || c == '\x0d' || c == '\x0b' || c == '\x0c'

/-- Python `str.strip()` on a character list. -/
def pyStripL (cs : List Char) : List Char :=
  ((cs.dropWhile isPySpace).reverse.dropWhile isPySpace).reverse

/-- Python `str.strip()`. -/
def py_strip (s : String) : String :=
  (pyStripL s.toList).asString

/-- Two-digit lowercase hex of a byte, for `\xNN` escapes in Python `repr`. -/
def hex2 (n : Nat) : String :=
  let dig := fun (d : Nat) => (Char.ofNat (if d < 10 then 48 + d else 87 + d)).toString
  dig (n / 16 % 16) ++ dig (n % 16)

/-- Python `repr` of a string: quoted with `'` (or `"` when the text contains
`'` but no `"`), escaping the backslash, the quote character, and ASCII
control characters. -/
def pyReprStr (s : String) : String :=
  let q : Char := if s.toList.contains '\'' && !(s.toList.contains '"') then '"' else '\''
  let esc := fun (c : Char) =>
    if c == '\\' then "\\\\"
    else if c == q then "\\" ++ q.toString
    else if c == '\n' then "\\n"
    else if c == '\x0d' then "\\r"
    else if c == '\t' then "\\t"
    else if c.toNat < 32 || c.toNat == 127 then "\\x" ++ hex2 c.toNat
    else c.toString
  q.toString ++ String.join (s.toList.map esc) ++ q.toString

mutual
/-- Python `repr` of a JSON value (used by `str()` on containers). -/
def pyRepr : JVal → String
  | .null => "None"
  | .bool true => "True"
  | .bool false => "False"
  | .num n => toString n
  | .str s => pyReprStr s
  | .arr xs => "[" ++ pyReprList xs ++ "]"
  | .obj kvs => "\x7b" ++ pyReprPairs kvs ++ "\x7d"

def pyReprList : List JVal → String
  | [] => ""
  | [x] => pyRepr x
  | x :: xs => pyRepr x ++ ", " ++ pyReprList xs

def pyReprPairs : List (String × JVal) → String
  | [] => ""
  | [kv] => pyReprStr kv.1 ++ ": " ++ pyRepr kv.2
  | kv :: kvs => pyReprStr kv.1 ++ ": " ++ pyRepr kv.2 ++ ", " ++ pyReprPairs kvs
end

/-- Python `str(v)` (identity on strings, `repr`-like elsewhere). -/
def pyStr : JVal → String
  | .str s => s
  | v => pyRepr v

mutual
/-- Python `json.dumps(v)` with default separators, as used by
`_extract_registry_queries` for the procedures scan (`capture_mcp.py` line
118). ASCII contents only are exercised, so `ensure_ascii` escaping beyond
control characters is not modelled. -/
def jsonDumps : JVal → String
  | .null => "null"
  | .bool true => "true"
  | .bool false => "false"
  | .num n => toString n
  | .str s => jsonQuote s
  | .arr xs => "[" ++ jsonDumpsList xs ++ "]"
  | .obj kvs => "\x7b" ++ jsonDumpsPairs kvs ++ "\x7d"

def jsonDumpsList : List JVal → String
  | [] => ""
  | [x] => jsonDumps x
  | x :: xs => jsonDumps x ++ ", " ++ jsonDumpsList xs

def jsonDumpsPairs : List (String × JVal) → String
  | [] => ""
  | [kv] => jsonQuote kv.1 ++ ": " ++ jsonDumps kv.2
  | kv :: kvs => jsonQuote kv.1 ++ ": " ++ jsonDumps kv.2 ++ ", " ++ jsonDumpsPairs kvs

def jsonQuote (s : String) : String :=
  let esc := fun (c : Char) =>
    if c == '"' then "\\\""
    else if c == '\\' then "\\\\"
    else if c == '\n' then "\\n"
    else if c == '\x0d' then "\\r"
    else if c == '\t' then "\\t"
    else if c.toNat < 32 then "\\u00" ++ hex2 c.toNat
    else c.toString
  "\"" ++ String.join (s.toList.map esc) ++ "\""
end

/-! ## Record graph store (`src/agent/db/models.py`, `src/agent/tools/metadata_store.py`)

The SQLite schema of `models.py`: `metadata_records` keyed by `id`, and
`record_links` with `UNIQUE(source_id, target_id)` and foreign keys
`ON DELETE CASCADE`. `database.py` opens the connection with
`PRAGMA foreign_keys=ON`, so foreign-key enforcement and the cascade are
active and are modelled. -/

/-- Category mapping from `db/models.py` (`CATEGORY_MAP`). -/
def CATEGORY_MAP : List (String × String) :=
  [("subject", "shared"),
   ("procedures", "shared"),
   ("instrument", "shared"),
   ("rig", "shared"),
   ("data_description", "asset"),
   ("acquisition", "asset"),
   ("session", "asset"),
   ("processing", "asset"),
   ("quality_control", "asset")]

/-- `VALID_RECORD_TYPES = frozenset(CATEGORY_MAP.keys())` (`db/models.py`). -/
def VALID_RECORD_TYPES : List String := CATEGORY_MAP.map (fun p => p.1)

/-- A row of `metadata_records`. `name` and `validation` are nullable columns
(modelled as `JVal`, with `JVal.null` for SQL NULL); `data` is the parsed
`data_json` document. -/
structure Record where
  id : String
  session_id : String
  record_type : String
  category : String
  name : JVal
  data : JVal
  status : String
  validation : JVal
  created_at : String
  updated_at : String
deriving Repr

/-- A row of `record_links`. -/
structure Link where
  source_id : String
  target_id : String
  created_at : String
deriving Repr

/-- The persisted store state: the `metadata_records` and `record_links`
tables, rows in insertion order. -/
structure Store where
  records : List Record
  links : List Link
deriving Repr

def emptyStore : Store := { records := [], links := [] }

/-- `_auto_name` (`metadata_store.py` lines 50-71): derive a display name from
record data. Returns `JVal.null` for Python `None`; the instrument/rig
branches return the raw looked-up values (Python `x or y`). -/
def auto_name (record_type : String) (data : List (String × JVal)) : JVal :=
  if record_type == "subject" then
    let sid := pyGet data "subject_id"
    let species := pyGetD data "species" (.obj [])
    let species_name : JVal :=
      match species with
      | .obj skvs => pyGetD skvs "name" (.str "")
      | _ => .str ""
    if truthy sid then
      if truthy species_name then
        .str (py_strip (pyStr species_name ++ " " ++ pyStr sid))
      else .str (pyStr sid)
    else .null
  else if record_type == "instrument" then
    let a := pyGet data "instrument_id"
    if truthy a then a else pyGet data "name"
  else if record_type == "rig" then
    let a := pyGet data "rig_id"
    if truthy a then a else pyGet data "name"
  else if record_type == "procedures" then
    let ptype := pyGet data "procedure_type"
    if truthy ptype then .str (pyStr ptype) else .null
  else if record_type == "data_description" then
    let pname := pyGet data "project_name"
    if truthy pname then .str (pyStr pname) else .null
  else if record_type == "session" then
    let start := pyGet data "session_start_time"
    if truthy start then .str ("Session " ++ pyStr start) else .null
  else .null

/-- `create_record` (`metadata_store.py` lines 78-106). Raises
`ValueError` (modelled as `Except.error`) before any write when the type is
unrecognized; otherwise inserts a `'draft'` row with the mapped category.
The generated uuid and timestamp are the explicit `record_id`/`now`
parameters. The whole call returns the (possibly unchanged) store so that
the no-partial-write behaviour of the error path is visible. -/
def create_record (s : Store) (session_id record_type : String)
    (data : List (String × JVal)) (name : Option String)
    (record_id now : String) : Except String Record × Store :=
  if !(VALID_RECORD_TYPES.contains record_type) then
    (.error ("Invalid record_type: " ++ record_type), s)
  else
    let category := ((CATEGORY_MAP.find? (fun p => p.1 == record_type)).map
      (fun p => p.2)).getD ""
    let display_name : JVal :=
      match name with
      | some n => if n == "" then auto_name record_type data else .str n
      | none => auto_name record_type data
    let r : Record :=
      { id := record_id, session_id := session_id, record_type := record_type,
        category := category, name := display_name, data := .obj data,
        status := "draft", validation := .null,
        created_at := now, updated_at := now }
    (.ok r, { s with records := s.records ++ [r] })

/-- `get_record` (`metadata_store.py` lines 109-114). -/
def get_record (s : Store) (record_id : String) : Option Record :=
  s.records.find? (fun r => r.id == record_id)

/-- The net effect of `update_record`'s `UPDATE` statements on the matched
row: the data update when `data` was supplied, then the name update when an
explicit or re-derived name was determined. -/
def apply_update (newData newName : Option JVal) (now : String) (r : Record) :
    Record :=
  let r1 := match newData with
    | some nd => { r with data := nd, updated_at := now }
    | none => r
  match newName with
  | some nn => { r1 with name := nn, updated_at := now }
  | none => r1

/-- `update_record` (`metadata_store.py` lines 117-157): shallow-merges the
supplied data over the existing document, then updates the name — explicitly
when given, otherwise re-derived from the merged data when that auto-name is
truthy. Returns `none` when the record does not exist. -/
def update_record (s : Store) (record_id : String)
    (data : Option (List (String × JVal))) (name : Option String)
    (now : String) : Option (Record × Store) :=
  match get_record s record_id with
  | none => none
  | some existing =>
    let md0 : JVal := if truthy existing.data then existing.data else .obj []
    let mergedOf := fun (d : List (String × JVal)) =>
      match md0 with
      | .obj okvs => JVal.obj (dictMerge okvs d)
      | _ => JVal.obj d
    let newData : Option JVal := data.map (fun d => mergedOf d)
    let newName : Option JVal :=
      match name, data with
      | some n, _ => some (.str n)
      | none, some d =>
        let auto :=
          match mergedOf d with
          | .obj mkvs => auto_name existing.record_type mkvs
          | _ => .null
        if truthy auto then some auto else none
      | none, none => none
    let s2 : Store :=
      { s with records := s.records.map (fun r =>
          if r.id == record_id then apply_update newData newName now r else r) }
    match get_record s2 record_id with
    | some r => some (r, s2)
    | none => none

/-- `delete_record` (`metadata_store.py` lines 198-203): `DELETE FROM
metadata_records WHERE id = ?`, returning `rowcount > 0`. With
`PRAGMA foreign_keys=ON`, the `ON DELETE CASCADE` clauses of `record_links`
remove every link incident to a deleted row. -/
def delete_record (s : Store) (record_id : String) : Bool × Store :=
  let deleted := s.records.any (fun r => r.id == record_id)
  let records2 := s.records.filter (fun r => r.id != record_id)
  let links2 :=
    if deleted then
      s.links.filter (fun l => l.source_id != record_id && l.target_id != record_id)
    else s.links
  (deleted, { records := records2, links := links2 })

/-- `link_records` (`metadata_store.py` lines 281-294): attempts the insert
into `record_links`; any exception (the `UNIQUE(source_id, target_id)`
violation, or the foreign-key violation when either id has no record) is
swallowed by the bare `except Exception: pass`, and the function always
returns the `{"source_id": ..., "target_id": ...}` payload. -/
def link_records (s : Store) (source_id target_id now : String) :
    (String × String) × Store :=
  let fkOk := s.records.any (fun r => r.id == source_id)
      && s.records.any (fun r => r.id == target_id)
  let uniqueOk := !(s.links.any (fun l => l.source_id == source_id && l.target_id == target_id))
  let s2 :=
    if fkOk && uniqueOk then
      { s with links := s.links ++ [{ source_id := source_id, target_id := target_id, created_at := now }] }
    else s
  ((source_id, target_id), s2)

/-- `get_linked_records` (`metadata_store.py` lines 297-307): the SQL join
`metadata_records m INNER JOIN record_links l ON (m.id = l.target_id AND
l.source_id = ?) OR (m.id = l.source_id AND l.target_id = ?)` — one output
row per (link, record) pair satisfying the condition, so a pair linked in
both orientations yields the neighbour twice. -/
def get_linked_records (s : Store) (record_id : String) : List Record :=
  s.links.flatMap (fun l => s.records.filter (fun m =>
    (m.id == l.target_id && l.source_id == record_id)
      || (m.id == l.source_id && l.target_id == record_id)))

/-- `GET /records/{record_id}/links` (`server.py` lines 173-181): the
`linked(id)` operation of the spec at the system boundary — 404 `NotFound`
when the record does not exist, otherwise the joined neighbour rows. -/
def get_record_links_endpoint (s : Store) (record_id : String) :
    Except Nat (List Record) :=
  match get_record s record_id with
  | none => .error 404
  | some _ => .ok (get_linked_records s record_id)

/-! ## Timestamp parsing (`datetime.strptime` over the formats of
`_validate_session`, `src/agent/validation.py` lines 259-265)

CPython's `strptime` compiles each directive to a regular expression
(`_strptime.TimeRE`), matches anchored at the start, and rejects the parse
when trailing characters remain. The directive patterns used by the five
accepted formats are: `%Y` exactly four digits; `%m` `1[0-2]|0[1-9]|[1-9]`;
`%d` `3[01]|[12]\d|0[1-9]|[1-9]`; `%H` `2[0-3]|[0-1]\d|\d`;
`%M` `[0-5]\d|\d`; `%S` `6[0-1]|[0-5]\d|\d`; `%f` one to six digits
(greedy); `%I` `1[0-2]|0[1-9]|[1-9]`; `%p` `am|pm` case-insensitively;
whitespace in the format matches one or more whitespace characters. The
embedding below enumerates the alternatives of each directive in the same
priority order and backtracks across directives exactly as the regex engine
does, demanding a full match; the captured fields then pass through the
`datetime` constructor's range validation (`validDT`), whose `ValueError` —
like every other `ValueError` of `strptime` — makes `_validate_session`'s
per-format loop move on to the next format. -/

/-- A parsed Python `datetime` (date parts default to 1900-01-01 when the
format carries no date, exactly as `strptime` defaults them). -/
structure PyDT where
  year : Nat
  month : Nat
  day : Nat
  hour : Nat
  minute : Nat
  second : Nat
  micro : Nat
deriving Repr, DecidableEq

/-- Comparison key: Python datetimes compare lexicographically on their
fields. -/
def PyDT.key (t : PyDT) : List Nat :=
  [t.year, t.month, t.day, t.hour, t.minute, t.second, t.micro]

/-- Lexicographic `≤` on equal-length `Nat` lists. -/
def lexLeN : List Nat → List Nat → Bool
  | [], _ => true
  | _ :: _, [] => false
  | a :: l1, b :: l2 => if a < b then true else if b < a then false else lexLeN l1 l2

/-- Python `datetime` `<=`. -/
def PyDT.le (a b : PyDT) : Bool := lexLeN a.key b.key

/-- Captured groups accumulated while matching a format. -/
structure Groups where
  gY : Option Nat := none
  gm : Option Nat := none
  gd : Option Nat := none
  gH : Option Nat := none
  gI : Option Nat := none
  gM : Option Nat := none
  gS : Option Nat := none
  gfDigits : Option (List Char) := none
  gp : Option Bool := none

/-- One `strptime` format directive (or literal / whitespace run). -/
inductive FTok where
  | lit (c : Char)
  | ws
  | dY | dm | dd | dH | dM | dS | df | dI | dp

def digitVal (c : Char) : Nat := c.toNat - 48

/-- Single digit in `[lo, hi]`. -/
def dig1 (cs : List Char) (lo hi : Nat) : Option (Nat × List Char) :=
  match cs with
  | c :: rest =>
    if c.isDigit && lo ≤ digitVal c && digitVal c ≤ hi then some (digitVal c, rest)
    else none
  | [] => none

/-- Two digits, the first in `[flo, fhi]` and the second in `[slo, shi]`. -/
def dig2 (cs : List Char) (flo fhi slo shi : Nat) : Option (Nat × List Char) :=
  match cs with
  | a :: b :: rest =>
    if a.isDigit && flo ≤ digitVal a && digitVal a ≤ fhi
        && b.isDigit && slo ≤ digitVal b && digitVal b ≤ shi then
      some (digitVal a * 10 + digitVal b, rest)
    else none
  | _ => none

/-- Exactly four digits (`%Y`). -/
def dig4 (cs : List Char) : Option (Nat × List Char) :=
  match cs with
  | a :: b :: c :: d :: rest =>
    if a.isDigit && b.isDigit && c.isDigit && d.isDigit then
      some (digitVal a * 1000 + digitVal b * 100 + digitVal c * 10 + digitVal d, rest)
    else none
  | _ => none

/-- The alternatives of a two-or-one-digit directive, in regex priority
order, as candidate parses. -/
def numAlts (alts : List (Option (Nat × List Char))) :
    List (Nat × List Char) :=
  alts.filterMap id

/-- Greedy-with-backtracking candidates for `%f` (one to six digits):
longest first. Returns the raw digit runs. -/
def fracCandidates (cs : List Char) : List ((List Char) × List Char) :=
  let run := (cs.takeWhile Char.isDigit).take 6
  (List.range run.length).map (fun i =>
    let k := run.length - i
    (cs.take k, cs.drop k))

/-- Greedy-with-backtracking candidates for a whitespace run (`\s+`):
longest first. -/
def wsCandidates (cs : List Char) : List (List Char) :=
  let n := (cs.takeWhile isPySpace).length
  (List.range n).map (fun i => cs.drop (n - i))

/-- Case-insensitive two-character AM/PM match (`%p`). -/
def ampmCandidates (cs : List Char) : List (Bool × List Char) :=
  match cs with
  | a :: b :: rest =>
    if a.toLower == 'a' && b.toLower == 'm' then [(false, rest)]
    else if a.toLower == 'p' && b.toLower == 'm' then [(true, rest)]
    else []
  | _ => []

/-- Candidate matches for one format token, in regex priority order. -/
def parseTok : FTok → Groups → List Char → List (Groups × List Char)
  | .lit c, g, cs =>
    match cs with
    | x :: rest => if x == c then [(g, rest)] else []
    | [] => []
  | .ws, g, cs => (wsCandidates cs).map (fun rest => (g, rest))
  | .dY, g, cs =>
    match dig4 cs with
    | some (v, rest) => [({ g with gY := some v }, rest)]
    | none => []
  | .dm, g, cs =>
    (numAlts [dig2 cs 1 1 0 2, dig2 cs 0 0 1 9, dig1 cs 1 9]).map
      (fun p => ({ g with gm := some p.1 }, p.2))
  | .dd, g, cs =>
    (numAlts [dig2 cs 3 3 0 1, dig2 cs 1 2 0 9, dig2 cs 0 0 1 9, dig1 cs 1 9]).map
      (fun p => ({ g with gd := some p.1 }, p.2))
  | .dH, g, cs =>
    (numAlts [dig2 cs 2 2 0 3, dig2 cs 0 1 0 9, dig1 cs 0 9]).map
      (fun p => ({ g with gH := some p.1 }, p.2))
  | .dM, g, cs =>
    (numAlts [dig2 cs 0 5 0 9, dig1 cs 0 9]).map
      (fun p => ({ g with gM := some p.1 }, p.2))
  | .dS, g, cs =>
    (numAlts [dig2 cs 6 6 0 1, dig2 cs 0 5 0 9, dig1 cs 0 9]).map
      (fun p => ({ g with gS := some p.1 }, p.2))
  | .df, g, cs =>
    (fracCandidates cs).map (fun p => ({ g with gfDigits := some p.1 }, p.2))
  | .dI, g, cs =>
    (numAlts [dig2 cs 1 1 0 2, dig2 cs 0 0 1 9, dig1 cs 1 9]).map
      (fun p => ({ g with gI := some p.1 }, p.2))
  | .dp, g, cs =>
    (ampmCandidates cs).map (fun p => ({ g with gp := some p.1 }, p.2))

/-- All parses of a token sequence (with full regex backtracking), in
priority order. -/
def parseToks : List FTok → Groups → List Char → List (Groups × List Char)
  | [], g, cs => [(g, cs)]
  | t :: ts, g, cs =>
    (parseTok t g cs).flatMap (fun p => parseToks ts p.1 p.2)

/-- Assemble the `datetime` from captured groups, applying CPython's
`%I`/`%p` hour rules (`%p` is ignored when `%H` supplied the hour). -/
def buildDT (g : Groups) : PyDT :=
  let hour :=
    match g.gH with
    | some h => h
    | none =>
      match g.gI with
      | some h12 =>
        (match g.gp with
         | some true => if h12 != 12 then h12 + 12 else 12
         | _ => if h12 == 12 then 0 else h12)
      | none => 0
  let micro :=
    match g.gfDigits with
    | some ds =>
      let padded := ds ++ List.replicate (6 - ds.length) '0'
      padded.foldl (fun acc c => acc * 10 + digitVal c) 0
    | none => 0
  { year := (g.gY).getD 1900, month := (g.gm).getD 1, day := (g.gd).getD 1,
    hour := hour, minute := (g.gM).getD 0, second := (g.gS).getD 0,
    micro := micro }

/-- The proleptic-Gregorian leap-year rule used by `datetime`. -/
def isLeapYear (y : Nat) : Bool :=
  (y % 4 == 0 && y % 100 != 0) || y % 400 == 0

def daysInMonth (y mo : Nat) : Nat :=
  if mo == 2 then (if isLeapYear y then 29 else 28)
  else if mo == 4 || mo == 6 || mo == 9 || mo == 11 then 30
  else 31

/-- The range validation of the `datetime` constructor, which
`datetime.strptime` invokes after the regex match: `MINYEAR (1) <= year <=
MAXYEAR (9999)`, a calendar-valid month/day pair, hour `0..23`, minute
`0..59`, second `0..59` (the `%S` regex admits the leap seconds 60 and 61,
which the constructor then rejects), microsecond `0..999999`. A violation
is a `ValueError`, so the format fails like a non-matching one. -/
def validDT (t : PyDT) : Bool :=
  1 ≤ t.year && t.year ≤ 9999
    && 1 ≤ t.month && t.month ≤ 12
    && 1 ≤ t.day && t.day ≤ daysInMonth t.year t.month
    && t.hour ≤ 23 && t.minute ≤ 59 && t.second ≤ 59 && t.micro ≤ 999999

/-- `datetime.strptime(s, fmt)`: the regex engine's (first, priority-order)
match must span the whole string and the captured fields must pass the
`datetime` constructor's range validation; otherwise a `ValueError` is
raised ("unconverted data remains", "day is out of range for month",
"second must be in 0..59", ...), modelled as `none`. -/
def strptimeFmt (toks : List FTok) (s : String) : Option PyDT :=
  match (((parseToks toks {} s.toList).filter (fun p => p.2.isEmpty)).head?).map
      (fun p => buildDT p.1) with
  | some t => if validDT t then some t else none
  | none => none

/-- The `fmt_patterns` list of `_validate_session` (`validation.py` lines
259-265), in order: `%Y-%m-%dT%H:%M:%S`, `%Y-%m-%dT%H:%M:%S.%f`,
`%H:%M %p`, `%H:%M`, `%I:%M %p`. -/
def fmt_patterns : List (List FTok) :=
  [[.dY, .lit '-', .dm, .lit '-', .dd, .lit 'T', .dH, .lit ':', .dM, .lit ':', .dS],
   [.dY, .lit '-', .dm, .lit '-', .dd, .lit 'T', .dH, .lit ':', .dM, .lit ':', .dS, .lit '.', .df],
   [.dH, .lit ':', .dM, .ws, .dp],
   [.dH, .lit ':', .dM],
   [.dI, .lit ':', .dM, .ws, .dp]]

/-- The per-timestamp loop of `_validate_session`: try each format in order
until one parses. -/
def parse_first_format (s : String) : Option PyDT :=
  fmt_patterns.foldl (fun acc toks => acc <|> strptimeFmt toks s) none

/-! ## Validation engine, session rules (`src/agent/validation.py`) -/

/-- A `ValidationIssue` (`validation.py` lines 63-74). -/
structure Issue where
  field : String
  message : String
  severity : String
deriving Repr, DecidableEq

def isNull : JVal → Bool
  | .null => true
  | _ => false

/-- Controlled vocabulary from `validation.py` (`VALID_MODALITIES`). -/
def VALID_MODALITIES : List String :=
  ["behavior", "behavior-videos", "confocal", "EMG", "ecephys", "fib",
   "fMOST", "icephys", "ISI", "MRI", "merfish", "pophys", "slap", "SPIM"]

/-- Controlled vocabulary from `validation.py` (`VALID_SEX`). -/
def VALID_SEX : List String := ["Male", "Female", "Unknown"]

/-- Controlled vocabulary from `validation.py` (`VALID_SPECIES`). -/
def VALID_SPECIES : List String :=
  ["Mus musculus", "Homo sapiens", "Rattus norvegicus", "Macaca mulatta",
   "Drosophila melanogaster", "Danio rerio"]

/-- Modelled from the spec: the static per-type required-field table used by
`validate_record` (whose definition is missing from `src/`). The entries are
the per-type split of `REQUIRED_FIELDS` in `validation.py` lines 52-56
(`subject.subject_id`, `data_description.modality`,
`data_description.project_name`); all other types have no required fields. -/
def required_fields_for : String → List String
  | "subject" => ["subject_id"]
  | "data_description" => ["modality", "project_name"]
  | _ => []

/-- Split on `'.'`, as `path.split(".")` does for dotted field paths. -/
def splitOnDot : List Char → List (List Char)
  | [] => [[]]
  | c :: rest =>
    if c == '.' then [] :: splitOnDot rest
    else
      match splitOnDot rest with
      | t :: ts => (c :: t) :: ts
      | [] => [[c]]

def splitDots (s : String) : List String :=
  (splitOnDot s.toList).map List.asString

/-- `_get_nested` (`validation.py` lines 125-136): resolve a dotted path
through nested maps, `None` when a step is not a dict. -/
def get_nested : JVal → List String → JVal
  | v, [] => v
  | v, p :: ps =>
    match v with
    | .obj kvs => get_nested (pyGet kvs p) ps
    | _ => .null

/-- Absence test of `_check_required_fields` (`validation.py` line 147):
`value is None or value == "" or value == []`. -/
def is_absent : JVal → Bool
  | .null => true
  | .str s => s == ""
  | .arr xs => xs.isEmpty
  | _ => false

/-- The required-field pass: each required path lands in `missing_required`
when absent and in `valid_fields` otherwise, in table order. -/
def check_required (record_type : String) (data : JVal) :
    List String × List String :=
  ((required_fields_for record_type).filter
     (fun f => is_absent (get_nested data (splitDots f))),
   (required_fields_for record_type).filter
     (fun f => !is_absent (get_nested data (splitDots f))))

/-- An aggregated validation result (the spec's ValidationResult: issues in
detection order, `missing_required`, `valid_fields`). -/
structure VResult where
  record_type : String
  issues : List Issue
  missing_required : List String
  valid_fields : List String
deriving Repr

/-- `status` derived from issue severities (spec §3). -/
def VResult.status (v : VResult) : String :=
  if v.issues.any (fun i => i.severity == "error") then "errors"
  else if !v.issues.isEmpty || !v.missing_required.isEmpty then "warnings"
  else "valid"

/-- `completeness_score` = (required fields present) / (required fields
total) for the record type; 1 when the type has zero required fields
(spec §3). Scores are exact rationals; the concrete totals are 0, 1 and 2,
for which the code's 2-decimal rounding is the identity. -/
def VResult.completeness_score (v : VResult) : ℚ :=
  let total := (required_fields_for v.record_type).length
  if total = 0 then 1
  else (((total : ℚ) - (v.missing_required.length : ℚ)) / (total : ℚ))

/-- `errors` of a result, in order. -/
def VResult.errors (v : VResult) : List Issue :=
  v.issues.filter (fun i => i.severity == "error")

/-- `warnings` of a result, in order. -/
def VResult.warnings (v : VResult) : List Issue :=
  v.issues.filter (fun i => i.severity == "warning")

/-- `re.match(r"^\d{4,}$", s)` as a Bool: four or more digits (Python's `$`
also accepts one trailing newline). -/
def matches_id_format (s : String) : Bool :=
  let cs := s.toList
  let core := if cs.getLast? == some '\n' then cs.dropLast else cs
  core.length ≥ 4 && core.all Char.isDigit

/-- Modelled from the spec: the subject rule family — identifier format
(warning when not `^\d{4,}$`), sex enum membership (error), species
plausibility (warning) — applied to the un-prefixed fields of the subject
document, mirroring the rule bodies of `_validate_subject`
(`validation.py` lines 153-191). Returns (issues, valid fields). -/
def subject_rules (d : List (String × JVal)) : List Issue × List String :=
  let sid := pyGet d "subject_id"
  let (i1, v1) : List Issue × List String :=
    match sid with
    | .null => ([], [])
    | v =>
      if matches_id_format (pyStr v) then ([], ["subject_id"])
      else ([{ field := "subject_id",
               message := "Subject ID '" ++ pyStr v
                 ++ "' should be a numeric string with 4+ digits",
               severity := "warning" }], [])
  let sex := pyGet d "sex"
  let (i2, v2) : List Issue × List String :=
    match sex with
    | .null => ([], [])
    | v =>
      if (match v with | .str x => VALID_SEX.contains x | _ => false) then
        ([], ["sex"])
      else ([{ field := "sex",
               message := "Invalid sex '" ++ pyStr v ++ "'",
               severity := "error" }], [])
  let (i3, v3) : List Issue × List String :=
    match pyGet d "species" with
    | .obj sk =>
      (match pyGet sk "name" with
       | .null => ([], [])
       | v =>
         if (match v with | .str x => VALID_SPECIES.contains x | _ => false) then
           ([], ["species.name"])
         else ([{ field := "species.name",
                  message := "Unrecognized species '" ++ pyStr v ++ "'",
                  severity := "warning" }], []))
    | _ => ([], [])
  (i1 ++ i2 ++ i3, v1 ++ v2 ++ v3)

/-- Modelled from the spec: the data_description rule family — modality
abbreviation enum membership (error), project-name length (warning) —
mirroring `_validate_data_description` (`validation.py` lines 194-223) on
un-prefixed fields. -/
def data_description_rules (d : List (String × JVal)) :
    List Issue × List String :=
  let (i1, v1) : List Issue × List String :=
    match pyGet d "modality" with
    | .arr mods =>
      (mods.enum.foldl (fun (acc : List Issue × List String) (p : Nat × JVal) =>
        match p.2 with
        | .obj mk =>
          (match pyGet mk "abbreviation" with
           | .null => acc
           | v =>
             let fld := "modality[" ++ toString p.1 ++ "].abbreviation"
             if (match v with | .str x => VALID_MODALITIES.contains x | _ => false) then
               (acc.1, acc.2 ++ [fld])
             else
               (acc.1 ++ [{ field := fld,
                            message := "Invalid modality '" ++ pyStr v ++ "'",
                            severity := "error" }], acc.2))
        | _ => acc) ([], []))
    | _ => ([], [])
  let (i2, v2) : List Issue × List String :=
    match pyGet d "project_name" with
    | .str s =>
      if (py_strip s).length < 2 then
        ([{ field := "project_name", message := "Project name is too short",
            severity := "warning" }], [])
      else ([], ["project_name"])
    | _ => ([], [])
  (i1 ++ i2, v1 ++ v2)

/-- Modelled from the spec: the session rule family — cross-field ordering of
start/end timestamps over the accepted format list, skipped silently when
neither side parses — mirroring the timestamp block of `_validate_session`
on un-prefixed fields. -/
def session_rules (d : List (String × JVal)) : List Issue × List String :=
  let start := pyGet d "session_start_time"
  let endv := pyGet d "session_end_time"
  let v1 := if !isNull start then ["session_start_time"] else []
  let v2 := if !isNull endv then ["session_end_time"] else []
  let issues :=
    if truthy start && truthy endv then
      match parse_first_format (py_strip (pyStr start)),
            parse_first_format (py_strip (pyStr endv)) with
      | some sdt, some edt =>
        if PyDT.le edt sdt then
          [{ field := "session_end_time",
             message := "Session end time must be after start time",
             severity := "error" }]
        else []
      | _, _ => []
    else []
  (issues, v1 ++ v2)

/-- Python `float(v)` coercibility for the numeric-bound rules: numbers and
booleans always coerce; strings coerce when they are a signed decimal
numeral (scientific notation and inf/nan spellings are outside the data
exercised here). Returns the coerced rational. -/
def to_float : JVal → Option ℚ
  | .num n => some (n : ℚ)
  | .bool b => some (if b then 1 else 0)
  | .str s =>
    let cs := (py_strip s).toList
    let body := match cs with
      | '-' :: rest => some (true, rest)
      | '+' :: rest => some (false, rest)
      | rest => some (false, rest)
    match body with
    | some (neg, rest) =>
      let intPart := rest.takeWhile Char.isDigit
      let rest2 := rest.drop intPart.length
      let (fracPart, rest3) :=
        match rest2 with
        | '.' :: r => (r.takeWhile Char.isDigit, r.drop (r.takeWhile Char.isDigit).length)
        | r => ([], r)
      if rest3.isEmpty && !(intPart.isEmpty && fracPart.isEmpty) then
        let ip : ℚ := (intPart.foldl (fun a c => a * 10 + digitVal c) 0 : ℕ)
        let fp : ℚ := (fracPart.foldl (fun a c => a * 10 + digitVal c) 0 : ℕ)
        let mag := ip + fp / ((10 : ℚ) ^ fracPart.length)
        some (if neg then -mag else mag)
      else none
    | none => none
  | _ => none

/-- Modelled from the spec: the procedures rule family — injection
coordinates must be coercible to numeric, section thickness must be a
positive number — mirroring `_validate_procedures` (`validation.py` lines
294-336) on un-prefixed fields. -/
def procedures_rules (d : List (String × JVal)) : List Issue × List String :=
  let (i1, v1) : List Issue × List String :=
    match pyGet d "protocol_id" with
    | .null => ([], [])
    | _ => ([], ["protocol_id"])
  let (i2, v2) : List Issue × List String :=
    match pyGet d "coordinates" with
    | .obj ck =>
      let x := pyGet ck "x"
      let y := pyGet ck "y"
      (match x, y with
       | .null, _ => ([], [])
       | _, .null => ([], [])
       | vx, vy =>
         if (to_float vx).isSome && (to_float vy).isSome then ([], ["coordinates"])
         else ([{ field := "coordinates",
                  message := "Coordinates must be numeric, got x=" ++ pyStr vx
                    ++ ", y=" ++ pyStr vy,
                  severity := "error" }], []))
    | _ => ([], [])
  let (i3, v3) : List Issue × List String :=
    match pyGet d "section_thickness_um" with
    | .null => ([], [])
    | v =>
      match to_float v with
      | some q =>
        if q ≤ 0 then
          ([{ field := "section_thickness_um",
              message := "Section thickness must be positive",
              severity := "error" }], [])
        else ([], ["section_thickness_um"])
      | none =>
        ([{ field := "section_thickness_um",
            message := "Section thickness must be numeric, got '" ++ pyStr v ++ "'",
            severity := "error" }], [])
  (i1 ++ i2 ++ i3, v1 ++ v2 ++ v3)

/-- Modelled from the spec: the unknown-field pass — for types whose
known-field allowlist is supplied by the schema collaborator, any top-level
key outside the allowlist yields a warning naming the field; when the
allowlist is unavailable the check is skipped entirely. -/
def unknown_field_warnings (allow : Option (List String))
    (d : List (String × JVal)) : List Issue :=
  match allow with
  | none => []
  | some l =>
    d.filterMap (fun kv =>
      if l.contains kv.1 then none
      else some { field := kv.1,
                  message := "Unknown field '" ++ kv.1 ++ "'",
                  severity := "warning" })

/-- Modelled from the spec: `validate_record(record_type, data)` — required
field pass, per-type rule dispatch, unknown-field pass. `known_fields` is
the externally supplied allowlist provider (`schema_info.KNOWN_FIELDS`,
which is empty when the schema package is unavailable). -/
def validate_record (known_fields : String → Option (List String))
    (record_type : String) (d : List (String × JVal)) : VResult :=
  let (missing, validReq) := check_required record_type (.obj d)
  let (ruleIssues, ruleValid) :=
    if record_type == "subject" then subject_rules d
    else if record_type == "data_description" then data_description_rules d
    else if record_type == "session" then session_rules d
    else if record_type == "procedures" then procedures_rules d
    else ([], [])
  let unknownIssues := unknown_field_warnings (known_fields record_type) d
  { record_type := record_type,
    issues := ruleIssues ++ unknownIssues,
    missing_required := missing,
    valid_fields := validReq ++ ruleValid }

/-! ## Registry correlation subsystem (`src/agent/tools/capture_mcp.py`) -/

/-- The separator class of `re.split(r"[;/×]\s*", genotype)`
(`capture_mcp.py` line 100). -/
def is_sep_char (c : Char) : Bool := c == ';' || c == '/' || c == '×'

/-- Split on each separator character, keeping empty segments (phase one of
the regex split). -/
def splitSeps : List Char → List (List Char)
  | [] => [[]]
  | c :: rest =>
    if is_sep_char c then [] :: splitSeps rest
    else
      match splitSeps rest with
      | t :: ts => (c :: t) :: ts
      | [] => [[c]]

/-- `re.split(r"[;/×]\s*", s)`: each separator consumes the maximal
whitespace run that follows it, so every segment after the first has its
leading whitespace removed. -/
def re_split_genotype (s : String) : List String :=
  match splitSeps s.toList with
  | [] => []
  | h :: t => h.asString :: t.map (fun cs => (cs.dropWhile isPySpace).asString)

/-- `queries.setdefault(k, []).append(v)`: append to the list under `k`,
inserting the key at the end on first use (Python dict insertion order). -/
def q_append (qs : List (String × List String)) (k v : String) :
    List (String × List String) :=
  if qs.any (fun p => p.1 == k) then
    qs.map (fun p => if p.1 == k then (p.1, p.2 ++ [v]) else p)
  else qs ++ [(k, [v])]

/-- `list(dict.fromkeys(l))`: deduplicate preserving first-seen order
(`capture_mcp.py` line 131). -/
def dedup_first (l : List String) : List String :=
  l.foldl (fun acc x => if acc.contains x then acc else acc ++ [x]) []

/-- `\w` over the ASCII data exercised here. -/
def isWordChar (c : Char) : Bool := c.isAlphanum || c == '_'

/-- The continuation class `[-\w]` of `_PLASMID_PATTERN`. -/
def isContChar (c : Char) : Bool := c == '-' || isWordChar c

def ciEq (a b : Char) : Bool := a.toLower == b.toLower

/-- Case-insensitive literal head match, returning the matched original
characters and the remainder. -/
def ciHead : List Char → List Char → Option (List Char × List Char)
  | [], cs => some ([], cs)
  | p :: ps, c :: cs =>
    if ciEq p c then (ciHead ps cs).map (fun r => (c :: r.1, r.2)) else none
  | _ :: _, [] => none

/-- The alternative heads of `_PLASMID_PATTERN`
(`(?:pAAV|AAV|pCAG|pEF|pCMV)`, `re.IGNORECASE`), in alternation order. -/
def plasmid_heads : List (List Char) :=
  [['p','A','A','V'], ['A','A','V'], ['p','C','A','G'], ['p','E','F'],
   ['p','C','M','V']]

/-- Try `_PLASMID_PATTERN` anchored at the current position: a head matched
case-insensitively followed by at least one `[-\w]` character, taken
greedily. -/
def plasmid_try (cs : List Char) : Option (List Char × List Char) :=
  plasmid_heads.foldl (fun acc p =>
    acc <|>
      (match ciHead p cs with
       | some (m, rest) =>
         let cont := rest.takeWhile isContChar
         if cont.isEmpty then none
         else some (m ++ cont, rest.drop cont.length)
       | none => none)) none

/-- `_PLASMID_PATTERN.findall`: scan left to right, emitting non-overlapping
matches and resuming after each. The fuel is the remaining length (every
step consumes at least one character). -/
def plasmid_findall : Nat → List Char → List String
  | 0, _ => []
  | _, [] => []
  | fuel + 1, c :: rest =>
    match plasmid_try (c :: rest) with
    | some (m, after) => m.asString :: plasmid_findall fuel after
    | none => plasmid_findall fuel rest

def plasmid_matches (s : String) : List String :=
  plasmid_findall s.toList.length s.toList

/-- Maximal runs of `\w` characters. -/
def word_runs : List Char → List (List Char)
  | [] => []
  | c :: rest =>
    let rs := word_runs rest
    if isWordChar c then
      match rest with
      | r :: _ =>
        if isWordChar r then
          match rs with
          | h :: t => (c :: h) :: t
          | [] => [[c]]
        else [c] :: rs
      | [] => [[c]]
    else rs

/-- `_ADDGENE_CATALOG_PATTERN.findall` (`\b\d{4,6}\b`): a match is exactly a
maximal word-character run that is all digits of length 4-6 (a longer digit
run has no interior word boundary, and a digit run touching a letter or
underscore is part of a larger word run). -/
def catalog_matches (s : String) : List String :=
  ((word_runs s.toList).filter
    (fun r => r.all Char.isDigit && 4 ≤ r.length && r.length ≤ 6)).map
      List.asString

/-- `int(match)` on an all-digit match. -/
def natOfDigits (s : String) : Nat :=
  s.toList.foldl (fun a c => a * 10 + digitVal c) 0

/-- `_extract_registry_queries` (`capture_mcp.py` lines 88-133): per-type
extraction of registry queries, deduplicated per registry preserving
first-seen order. For alleles, a dict element whose `name` value is a
non-string truthy value is skipped (in Python `len(name)` would raise there;
no claim and no test exercises that path). -/
def extract_registry_queries (record_type : String)
    (data : List (String × JVal)) : List (String × List String) :=
  let queries : List (String × List String) :=
    if record_type == "subject" then
      let q1 : List (String × List String) :=
        match pyGet data "genotype" with
        | .str g =>
          if g != "" && g.length > 2 then
            (re_split_genotype g).foldl (fun acc part =>
              let p := py_strip part
              if p != "" && p.length > 2 then
                q_append (q_append acc "mgi" p) "ncbi_gene" p
              else acc) []
          else []
        | _ => []
      let q2 : List (String × List String) :=
        match pyGet data "alleles" with
        | .arr items =>
          items.foldl (fun acc a =>
            let name : JVal :=
              match a with
              | .obj ak => pyGet ak "name"
              | v => if truthy v then .str (pyStr v) else .null
            match name with
            | .str n => if n != "" && n.length > 2 then q_append acc "mgi" n else acc
            | _ => acc) q1
        | _ => q1
      q2
    else if record_type == "procedures" then
      let full := jsonDumps (.obj data)
      let q1 := (plasmid_matches full).foldl
        (fun acc m => q_append acc "addgene" m) []
      (catalog_matches full).foldl
        (fun acc m => if natOfDigits m > 1000 then q_append acc "addgene" m else acc) q1
    else []
  queries.map (fun p => (p.1, dedup_first p.2))

/-- The outcome of one awaited registry lookup coroutine under
`asyncio.gather(..., return_exceptions=True)`: either a raised exception
(including per-call `httpx` timeouts surfacing as exceptions) or the
returned result dict. -/
inductive LookupOutcome where
  | exn (msg : String)
  | ok (fields : List (String × JVal))
deriving Repr

/-- The `lookup_fns` table of `_run_registry_lookups` (`capture_mcp.py`
lines 144-148). -/
def lookup_fn_registries : List String := ["addgene", "ncbi_gene", "mgi"]

/-- Task construction of `_run_registry_lookups` (lines 150-155): one
`(registry, term)` task per term of each registry that has a lookup
function, in dict insertion order. -/
def lookup_tasks (queries : List (String × List String)) :
    List (String × String) :=
  queries.flatMap (fun p =>
    if lookup_fn_registries.contains p.1 then p.2.map (fun t => (p.1, t)) else [])

/-- The result-collection loop of `_run_registry_lookups` (lines 161-179):
`asyncio.gather` returns one outcome per task in task order; an exception
outcome is logged and skipped, a dict outcome is merged over the
`{"registry": ..., "query": ...}` base entry. When the overall
`asyncio.wait_for` deadline (20s) fires, the `TimeoutError` is caught and
the collected list — still empty, as the loop runs only after `gather`
completes — is returned. The function is total: no exception reaches the
caller. -/
def run_registry_lookups (tasks : List (String × String))
    (outcomes : List LookupOutcome) (overallTimeout : Bool) :
    List (List (String × JVal)) :=
  if overallTimeout then []
  else
    (tasks.zip outcomes).foldl (fun results p =>
      match p.2 with
      | .exn _ => results
      | .ok d =>
        results ++ [dictMerge [("registry", .str p.1.1), ("query", .str p.1.2)] d]) []

/-! ## Streaming result correlator (`src/agent/service.py` lines 181-213)

The `chat` loop owns a per-turn `asyncio.Queue` (installed into the
`validation_events` context variable for the duration of the turn) and a
`last_capture_tool_use_id` register. The observable events relevant to
delivery are: a `content_block_start` for a `capture_metadata` tool use
(which overwrites the register), a `queue.put_nowait` by the tool handler
(`capture_mcp.py` lines 289-291), and the drain loop at the top of each
message iteration, which pops every queued validation dict in FIFO order,
yields it attached to the register's id when the register is set (clearing
the register), and silently discards it otherwise. -/

inductive ChatEvent where
  | observeCapture (id : String)
  | push (v : Nat)
  | drain
deriving Repr

structure ChatState where
  queue : List Nat
  lastId : Option String
  delivered : List (String × Nat)
deriving Repr, DecidableEq

/-- The `while not queue.empty()` drain loop (`service.py` lines 190-197). -/
def drainStep (st : ChatState) : ChatState :=
  st.queue.foldl (fun acc v =>
    match acc.lastId with
    | some i => { acc with delivered := acc.delivered ++ [(i, v)], lastId := none }
    | none => acc) { st with queue := [] }

def chatStep : ChatState → ChatEvent → ChatState
  | st, .observeCapture i => { st with lastId := some i }
  | st, .push v => { st with queue := st.queue ++ [v] }
  | st, .drain => drainStep st

def initChatState : ChatState := { queue := [], lastId := none, delivered := [] }

def runChat (tr : List ChatEvent) : ChatState := tr.foldl chatStep initChatState

/-- A well-ordered turn: each capture's tool-use id is observed, its
validation is pushed, and the queue is drained before the next capture —
the ordering contract §4.4 of the spec places on the streaming consumer. -/
def roundTrace (rounds : List (String × Nat)) : List ChatEvent :=
  rounds.flatMap (fun r => [.observeCapture r.1, .push r.2, .drain])

/-! ## Shared lemmas -/

theorem pyLookup_append (xs ys : List (String × JVal)) (k : String) :
    pyLookup (xs ++ ys) k = (pyLookup xs k).or (pyLookup ys k) := by
  induction xs with
  | nil => simp [pyLookup]
  | cons a l ih =>
    by_cases ha : a.1 == k
    · simp [pyLookup, List.find?_cons, ha]
    · simpa [pyLookup, List.find?_cons, ha] using ih

theorem pyLookup_override (old new : List (String × JVal)) (k : String) :
    pyLookup (old.map fun kv => (kv.1, (pyLookup new kv.1).getD kv.2)) k
      = (pyLookup old k).map (fun v => (pyLookup new k).getD v) := by
  induction old with
  | nil => simp [pyLookup]
  | cons a l ih =>
    by_cases ha : a.1 == k
    · have hak : a.1 = k := by simpa using ha
      simp [pyLookup, List.find?_cons, ha, hak]
    · simpa [pyLookup, List.find?_cons, ha] using ih

theorem pyLookup_cons_eq (b : String × JVal) (l : List (String × JVal)) (k : String)
    (h : (b.1 == k) = true) : pyLookup (b :: l) k = some b.2 := by
  simp [pyLookup, List.find?_cons, h]

theorem pyLookup_cons_ne (b : String × JVal) (l : List (String × JVal)) (k : String)
    (h : (b.1 == k) = false) : pyLookup (b :: l) k = pyLookup l k := by
  simp [pyLookup, List.find?_cons, h]

theorem pyLookup_newOnly (old new : List (String × JVal)) (k : String) :
    pyLookup (new.filter (fun kv => (pyLookup old kv.1).isNone)) k
      = if (pyLookup old k).isNone then pyLookup new k else none := by
  induction new with
  | nil => simp [pyLookup]
  | cons b bs ih =>
    rw [List.filter_cons]
    by_cases hcond : (pyLookup old b.1).isNone = true
    · rw [if_pos hcond]
      by_cases hb : (b.1 == k) = true
      · have hbk : b.1 = k := by simpa using hb
        rw [pyLookup_cons_eq _ _ _ hb, pyLookup_cons_eq _ _ _ hb]
        rw [hbk] at hcond
        rw [if_pos hcond]
      · rw [pyLookup_cons_ne _ _ _ (by simpa using hb),
            pyLookup_cons_ne _ _ _ (by simpa using hb)]
        exact ih
    · rw [if_neg hcond]
      by_cases hb : (b.1 == k) = true
      · have hbk : b.1 = k := by simpa using hb
        rw [hbk] at hcond
        rw [ih, if_neg hcond, if_neg hcond]
      · rw [pyLookup_cons_ne _ _ _ (by simpa using hb)]
        exact ih


/-- Key lookup through a shallow merge: the right dictionary wins, then the
left, matching Python's `{**old, **new}`. -/
theorem pyLookup_dictMerge (old new : List (String × JVal)) (k : String) :
    pyLookup (dictMerge old new) k = (pyLookup new k).or (pyLookup old k) := by
  rw [dictMerge, pyLookup_append, pyLookup_override, pyLookup_newOnly]
  cases hold : pyLookup old k with
  | none =>
    simp [hold]
  | some v =>
    cases hnew : pyLookup new k with
    | none => simp [hold, hnew]
    | some w => simp [hold, hnew]

/-- Merging over an empty dictionary is the identity. -/
theorem dictMerge_nil (l : List (String × JVal)) : dictMerge [] l = l := by
  simp [dictMerge, pyLookup]

/-! ## Claim theorems -/

/-- A reachable store exercising the link invariant: two records created,
then linked in both orientations. -/
def c1Store : Store :=
  (link_records
    (link_records
      (create_record
        (create_record emptyStore "s1" "subject" [] none "r1" "t0").2
        "s1" "session" [] none "r2" "t1").2
      "r1" "r2" "t2").2
    "r2" "r1" "t3").2

/-- C1: the claim requires at most one link per unordered pair, but
`record_links` enforces `UNIQUE(source_id, target_id)` — an ordered pair —
and `link_records` only swallows that ordered-unique violation, so
`link(r1,r2)` then `link(r2,r1)` stores two edges and `linked(r1)` lists
`r2` twice. -/
theorem c1_link_unordered_uniqueness_violated :
    c1Store.links.length = 2 ∧
    (c1Store.links.map (fun l => (l.source_id, l.target_id)))
      = [("r1", "r2"), ("r2", "r1")] ∧
    ((get_linked_records c1Store "r1").map (fun r => r.id)) = ["r2", "r2"] := by
  refine ⟨rfl, rfl, rfl⟩

/-- C10: `link_records` always returns the `(source_id, target_id)` payload;
when either record is missing the foreign-key failure of the insert is
swallowed and the store is unchanged, so the caller sees the same success
value with no edge created. The function is total — no exception escapes. -/
theorem c10_link_records_swallows_insert_failures (s : Store) (a b now : String) :
    (link_records s a b now).1 = (a, b) ∧
    ((s.records.any (fun r => r.id == a)) = false ∨
        (s.records.any (fun r => r.id == b)) = false →
      (link_records s a b now).2 = s) := by
  constructor
  · rfl
  · intro h
    have hfk : (s.records.any (fun r => r.id == a)
        && s.records.any (fun r => r.id == b)) = false := by
      rcases h with h | h <;> simp [h]
    simp [link_records, hfk]

/-- Witness for C10 at a concrete input: an empty store has neither record,
yet the call returns the success payload and writes nothing. -/
theorem c10_witness :
    (link_records emptyStore "a" "b" "t0").1 = ("a", "b") ∧
    (link_records emptyStore "a" "b" "t0").2 = emptyStore :=
  ⟨(c10_link_records_swallows_insert_failures emptyStore "a" "b" "t0").1,
   (c10_link_records_swallows_insert_failures emptyStore "a" "b" "t0").2
     (Or.inl (by decide))⟩

/-- C4: the result-collection loop of `_run_registry_lookups` returns
exactly one entry per succeeding call, in task order; a failing call
(exception outcome under `gather(..., return_exceptions=True)`) contributes
nothing, and the function is total, so no exception reaches the caller of
the lookup stage or the enclosing capture handler. -/
theorem c4_run_lookups_exactly_successes
    (tasks : List (String × String)) (outcomes : List LookupOutcome) :
    run_registry_lookups tasks outcomes false =
      (tasks.zip outcomes).filterMap (fun p =>
        match p.2 with
        | .exn _ => none
        | .ok d => some (dictMerge [("registry", .str p.1.1), ("query", .str p.1.2)] d)) ∧
    (run_registry_lookups tasks outcomes false).length =
      (tasks.zip outcomes).countP (fun p =>
        match p.2 with
        | .exn _ => false
        | .ok _ => true) := by
  have key : ∀ (l : List ((String × String) × LookupOutcome))
      (acc : List (List (String × JVal))),
      l.foldl (fun results p =>
        match p.2 with
        | LookupOutcome.exn _ => results
        | LookupOutcome.ok d =>
          results ++ [dictMerge [("registry", JVal.str p.1.1), ("query", JVal.str p.1.2)] d]) acc
      = acc ++ l.filterMap (fun p =>
          match p.2 with
          | LookupOutcome.exn _ => none
          | LookupOutcome.ok d =>
            some (dictMerge [("registry", JVal.str p.1.1), ("query", JVal.str p.1.2)] d)) := by
    intro l
    induction l with
    | nil => intro acc; simp
    | cons p l ih =>
      intro acc
      obtain ⟨pt, po⟩ := p
      cases po <;> simp [List.foldl_cons, List.filterMap_cons, ih]
  have hmain : run_registry_lookups tasks outcomes false =
      (tasks.zip outcomes).filterMap (fun p =>
        match p.2 with
        | .exn _ => none
        | .ok d => some (dictMerge [("registry", .str p.1.1), ("query", .str p.1.2)] d)) := by
    rw [run_registry_lookups]
    simp only [Bool.false_eq_true, if_false]
    exact (key (tasks.zip outcomes) []).trans (List.nil_append _)
  refine ⟨hmain, ?_⟩
  rw [hmain]
  induction tasks.zip outcomes with
  | nil => rfl
  | cons p l ih =>
    cases hp : p.2 <;> simp [List.filterMap_cons, List.countP_cons, hp, ih]

/-- Witness for C4: one failing and one succeeding call — the result list is
exactly the succeeding entry. -/
theorem c4_witness :
    run_registry_lookups [("mgi", "Ai14"), ("ncbi_gene", "Bad")]
        [.ok [("found", .bool true)], .exn "ReadTimeout"] false
      = [[("registry", .str "mgi"), ("query", .str "Ai14"), ("found", .bool true)]] := by
  rw [(c4_run_lookups_exactly_successes [("mgi", "Ai14"), ("ncbi_gene", "Bad")]
      [.ok [("found", .bool true)], .exn "ReadTimeout"]).1]
  rfl

/-- The generalized run of a well-ordered sequence of capture rounds. -/
theorem chat_rounds_general (rounds : List (String × Nat))
    (del : List (String × Nat)) :
    List.foldl chatStep { queue := [], lastId := none, delivered := del }
        (roundTrace rounds)
      = { queue := [], lastId := none, delivered := del ++ rounds } := by
  induction rounds generalizing del with
  | nil => simp [roundTrace]
  | cons r rs ih =>
    rw [roundTrace, List.flatMap_cons, List.foldl_append]
    have hstep : List.foldl chatStep { queue := [], lastId := none, delivered := del }
        [ChatEvent.observeCapture r.1, ChatEvent.push r.2, ChatEvent.drain]
        = { queue := [], lastId := none, delivered := del ++ [(r.1, r.2)] } := by
      simp [chatStep, drainStep]
    rw [hstep]
    have hrs := ih (del ++ [(r.1, r.2)])
    rw [roundTrace] at hrs
    rw [hrs]
    simp

/-- C7 (amended): when the consumer drains between capture invocations — the
ordering contract the spec places on the streaming caller — every pushed
ValidationResult is delivered exactly once, attached to the id of the
capture invocation immediately preceding it, which is the most recent id
the consumer has observed. -/
theorem c7_delivery_exactly_once_when_drained_between
    (rounds : List (String × Nat)) :
    (runChat (roundTrace rounds)).delivered = rounds := by
  have := chat_rounds_general rounds []
  rw [runChat, initChatState]
  rw [this]
  simp

/-- C7 counterexample: two capture pushes before a drain. The drain attaches
the first queued result to the only (latest) observed id and clears the
register, so the second result is never delivered — delivery is not exactly
once for every capture. -/
theorem c7_counterexample_second_result_dropped :
    (runChat [.observeCapture "tool-1", .push 0, .observeCapture "tool-2",
              .push 1, .drain]).delivered = [("tool-2", 0)] ∧
    ((runChat [.observeCapture "tool-1", .push 0, .observeCapture "tool-2",
               .push 1, .drain]).delivered.filter (fun p => p.2 == 1)).length = 0 := by
  refine ⟨rfl, rfl⟩

/-- C5: `create_record` rejects an unrecognized record_type with a
`ValueError` before any write — the store is returned unchanged — and for a
recognized type appends exactly one row whose category is the static map's
value for that type and whose status is `'draft'`. The type gate has
exactly 9 recognized values. -/
theorem c5_create_record_type_gate (s : Store) (session_id record_type : String)
    (data : List (String × JVal)) (name : Option String) (record_id now : String) :
    VALID_RECORD_TYPES.length = 9 ∧
    (VALID_RECORD_TYPES.contains record_type = false →
      create_record s session_id record_type data name record_id now =
        (.error ("Invalid record_type: " ++ record_type), s)) ∧
    (VALID_RECORD_TYPES.contains record_type = true →
      ∃ r, create_record s session_id record_type data name record_id now =
            (.ok r, { s with records := s.records ++ [r] }) ∧
        (CATEGORY_MAP.find? (fun p => p.1 == record_type)).map (fun p => p.2)
          = some r.category ∧
        r.status = "draft") := by
  refine ⟨rfl, ?_, ?_⟩
  · intro h
    unfold create_record
    rw [h]
    rfl
  · intro h
    have hmem : record_type ∈ VALID_RECORD_TYPES := by
      simpa using h
    obtain ⟨pr, hpr_mem, hpr_eq⟩ := List.mem_map.mp hmem
    have hfind_some : (CATEGORY_MAP.find? (fun p => p.1 == record_type)).isSome := by
      rw [List.find?_isSome]
      exact ⟨pr, hpr_mem, by simp [hpr_eq]⟩
    obtain ⟨qr, hq⟩ := Option.isSome_iff_exists.mp hfind_some
    unfold create_record
    rw [h, hq]
    exact ⟨_, rfl, rfl, rfl⟩

/-- Witness for C5: `"plasmid"` is rejected with the store untouched;
`"subject"` creates a draft record in the `shared` category. -/
theorem c5_witness :
    create_record emptyStore "s1" "plasmid" [] none "r1" "t0"
        = (.error ("Invalid record_type: " ++ "plasmid"), emptyStore) ∧
    ∃ r, create_record emptyStore "s1" "subject" [] none "r1" "t0"
          = (.ok r, { emptyStore with records := emptyStore.records ++ [r] }) ∧
      (CATEGORY_MAP.find? (fun p => p.1 == "subject")).map (fun p => p.2)
        = some r.category ∧
      r.status = "draft" :=
  ⟨(c5_create_record_type_gate emptyStore "s1" "plasmid" [] none "r1" "t0").2.1
      (by decide),
   (c5_create_record_type_gate emptyStore "s1" "subject" [] none "r1" "t0").2.2
      (by decide)⟩

/-- C3: `delete_record` reports whether a row existed (false on a missing
id, so repeating it is a no-op), removes the row, and — via the enforced
`ON DELETE CASCADE` — removes exactly the links incident to it; afterwards
the `linked(id)` boundary operation answers 404 `NotFound` for that id. -/
theorem c3_delete_record_cascades (s : Store) (record_id : String) :
    (delete_record s record_id).1 = s.records.any (fun r => r.id == record_id) ∧
    (∀ r ∈ (delete_record s record_id).2.records, ¬ r.id = record_id) ∧
    ((delete_record s record_id).1 = true →
      (delete_record s record_id).2.links =
        s.links.filter (fun l => l.source_id != record_id && l.target_id != record_id)) ∧
    ((delete_record s record_id).1 = false → (delete_record s record_id).2 = s) ∧
    get_record_links_endpoint (delete_record s record_id).2 record_id = .error 404 := by
  refine ⟨rfl, ?_, ?_, ?_, ?_⟩
  · intro r hr
    unfold delete_record at hr
    simp only at hr
    have hmem := List.mem_filter.mp hr
    simpa using hmem.2
  · intro h
    unfold delete_record at h ⊢
    simp only at h ⊢
    rw [if_pos h]
  · intro h
    unfold delete_record at h ⊢
    simp only at h ⊢
    obtain ⟨recs, links⟩ := s
    simp only at h ⊢
    rw [if_neg (by simp [h]), List.filter_eq_self.mpr]
    intro a ha
    have := (List.any_eq_false.mp h) a ha
    simpa using this
  · have hnone : get_record (delete_record s record_id).2 record_id = none := by
      rw [get_record, List.find?_eq_none]
      intro x hx
      unfold delete_record at hx
      simp only at hx
      have hmem := List.mem_filter.mp hx
      simpa using hmem.2
    simp [get_record_links_endpoint, hnone]

/-- A reachable store for the C3 witness: two records with one link. -/
def c3Store : Store :=
  (link_records
    (create_record
      (create_record emptyStore "s1" "subject" [] none "r1" "t0").2
      "s1" "session" [] none "r2" "t1").2
    "r1" "r2" "t2").2

/-- Witness for C3 at a concrete input: deleting `r1` reports true, removes
the incident link, leaves `linked("r1")` at 404, and a second delete
reports false. -/
theorem c3_witness :
    (delete_record c3Store "r1").1 = true ∧
    (delete_record c3Store "r1").2.links = [] ∧
    get_record_links_endpoint (delete_record c3Store "r1").2 "r1" = .error 404 ∧
    (delete_record (delete_record c3Store "r1").2 "r1").1 = false := by
  have h := c3_delete_record_cascades c3Store "r1"
  refine ⟨?_, ?_, h.2.2.2.2, ?_⟩
  · rw [h.1]; rfl
  · rw [h.2.2.1 (by rw [h.1]; rfl)]; rfl
  · rw [(c3_delete_record_cascades (delete_record c3Store "r1").2 "r1").1]; rfl

theorem apply_update_id (newData newName : Option JVal) (now : String)
    (r : Record) : (apply_update newData newName now r).id = r.id := by
  cases newData <;> cases newName <;> rfl

theorem apply_update_data (nd : JVal) (newName : Option JVal) (now : String)
    (r : Record) : (apply_update (some nd) newName now r).data = nd := by
  cases newName <;> rfl

/-- `find?` over a list whose matching rows were rewritten by an
id-preserving update. -/
theorem find?_map_upd (l : List Record) (rid : String) (g : Record → Record)
    (hid : ∀ r, (g r).id = r.id) :
    (l.map (fun r => if r.id == rid then g r else r)).find? (fun r => r.id == rid)
      = (l.find? (fun r => r.id == rid)).map g := by
  induction l with
  | nil => simp
  | cons a l ih =>
    by_cases ha : (a.id == rid) = true
    · have hga : ((g a).id == rid) = true := by rw [hid]; exact ha
      rw [List.map_cons, if_pos ha, List.find?_cons, List.find?_cons]
      simp only [ha, hga]
      rfl
    · have hf : (a.id == rid) = false := by simpa using ha
      rw [List.map_cons, if_neg ha, List.find?_cons, List.find?_cons]
      simp only [hf]
      exact ih

/-- A single `update_record` with supplied data on a record holding the
dictionary `d0` succeeds and stores the shallow merge of `d0` and the new
data. -/
theorem update_store_found (s : Store) (rid : String) (r0 : Record)
    (hget : get_record s rid = some r0) (nd nn : Option JVal) (now : String) :
    get_record { s with records := s.records.map (fun r =>
        if r.id == rid then apply_update nd nn now r else r) } rid
      = some (apply_update nd nn now r0) := by
  rw [get_record]
  simp only []
  rw [find?_map_upd _ _ _ (fun r => apply_update_id nd nn now r)]
  rw [get_record] at hget
  rw [hget]
  rfl

/-- A single `update_record` with supplied data on a record holding the
dictionary `d0` succeeds and stores the shallow merge of `d0` and the new
data. -/
theorem update_record_data (s : Store) (rid : String) (A : List (String × JVal))
    (name : Option String) (now : String) (r0 : Record) (d0 : List (String × JVal))
    (hget : get_record s rid = some r0) (hdata : r0.data = .obj d0) :
    ∃ r1 s1, update_record s rid (some A) name now = some (r1, s1) ∧
      r1.data = .obj (dictMerge d0 A) ∧ get_record s1 rid = some r1 := by
  have hmd0 : (if truthy r0.data then r0.data else JVal.obj []) = JVal.obj d0 := by
    rw [hdata]
    cases d0 <;> simp [truthy]
  rcases name with _ | n
  · simp only [update_record, hget, hmd0, Option.map_some]
    rw [update_store_found s rid r0 hget _ _ now]
    exact ⟨_, _, rfl, apply_update_data _ _ _ _,
      update_store_found s rid r0 hget _ _ now⟩
  · simp only [update_record, hget, hmd0, Option.map_some]
    rw [update_store_found s rid r0 hget _ _ now]
    exact ⟨_, _, rfl, apply_update_data _ _ _ _,
      update_store_found s rid r0 hget _ _ now⟩

/-- C6 (amended): two successive data updates store the shallow merge of the
record's existing document with A and then B — key-wise, B's top-level keys
win, then A's, then the prior document's, and a winning value replaces the
old one outright; when the record's prior document is empty this is exactly
shallow-merge(A, B). -/
theorem c6_update_update_shallow_merge (s : Store) (rid : String)
    (d0 A B : List (String × JVal)) (r0 : Record) (now1 now2 : String)
    (hget : get_record s rid = some r0) (hdata : r0.data = .obj d0) :
    ∃ r1 s1 r2 s2,
      update_record s rid (some A) none now1 = some (r1, s1) ∧
      update_record s1 rid (some B) none now2 = some (r2, s2) ∧
      r2.data = .obj (dictMerge (dictMerge d0 A) B) ∧
      (∀ k, pyLookup (dictMerge (dictMerge d0 A) B) k
        = ((pyLookup B k).or (pyLookup A k)).or (pyLookup d0 k)) ∧
      (d0 = [] → r2.data = .obj (dictMerge A B)) := by
  obtain ⟨r1, s1, h1, h1d, h1g⟩ := update_record_data s rid A none now1 r0 d0 hget hdata
  obtain ⟨r2, s2, h2, h2d, h2g⟩ :=
    update_record_data s1 rid B none now2 r1 (dictMerge d0 A) h1g h1d
  refine ⟨r1, s1, r2, s2, h1, h2, h2d, ?_, ?_⟩
  · intro k
    rw [pyLookup_dictMerge, pyLookup_dictMerge, Option.or_assoc]
  · intro h0
    rw [h0] at h2d
    rw [dictMerge_nil] at h2d
    exact h2d

/-- A reachable store for C6: a record whose document already holds a key
(`x`) that neither update mentions. -/
def c6Store : Store :=
  (create_record emptyStore "s1" "processing" [("x", .num 1)] none "r1" "t0").2

def c6A : List (String × JVal) := [("y", .num 2)]

def c6B : List (String × JVal) := [("y", .num 3)]

/-- The record data after `update(r1, A)` then `update(r1, B)` on `c6Store`. -/
def c6Final : Option JVal :=
  match update_record c6Store "r1" (some c6A) none "t1" with
  | some (_, s1) =>
    (match update_record s1 "r1" (some c6B) none "t2" with
     | some (r2, _) => some r2.data
     | none => none)
  | none => none

/-- C6 counterexample: with prior data `{"x": 1}`, `update(A)` then
`update(B)` leaves `{"x": 1, "y": 3}`, which is not shallow-merge(A, B) =
`{"y": 3}` — the claim's equation ignores the record's pre-existing keys. -/
theorem c6_counterexample_prior_keys_survive :
    c6Final = some (.obj [("x", .num 1), ("y", .num 3)]) ∧
    pyLookup (dictMerge c6A c6B) "x" = none ∧
    c6Final ≠ some (.obj (dictMerge c6A c6B)) := by
  refine ⟨rfl, rfl, ?_⟩
  intro h
  rw [show c6Final = some (.obj [("x", .num 1), ("y", .num 3)]) from rfl,
      show JVal.obj (dictMerge c6A c6B) = .obj [("y", .num 3)] from rfl] at h
  have h2 := Option.some.inj h
  have h3 := congrArg (fun v => match v with
    | JVal.obj l => l.length
    | _ => 0) h2
  simp at h3

/-- Witness for C6 (amended) at the concrete `c6Store`. -/
theorem c6_witness :
    ∃ r1 s1 r2 s2,
      update_record c6Store "r1" (some c6A) none "t1" = some (r1, s1) ∧
      update_record s1 "r1" (some c6B) none "t2" = some (r2, s2) ∧
      r2.data = .obj (dictMerge (dictMerge [("x", .num 1)] c6A) c6B) := by
  obtain ⟨r1, s1, r2, s2, h1, h2, h3, _, _⟩ :=
    c6_update_update_shallow_merge c6Store "r1" [("x", .num 1)] c6A c6B
      { id := "r1", session_id := "s1", record_type := "processing",
        category := "asset", name := .null, data := .obj [("x", .num 1)],
        status := "draft", validation := .null, created_at := "t0",
        updated_at := "t0" } "t1" "t2" rfl rfl
  exact ⟨r1, s1, r2, s2, h1, h2, h3⟩

theorem unknown_field_warnings_all_warning (allow : Option (List String))
    (d : List (String × JVal)) :
    ∀ i ∈ unknown_field_warnings allow d, i.severity = "warning" := by
  cases allow with
  | none => simp [unknown_field_warnings]
  | some l =>
    intro i hi
    rw [unknown_field_warnings] at hi
    obtain ⟨kv, _, hkv⟩ := List.mem_filterMap.mp hi
    by_cases hc : l.contains kv.1 = true
    · rw [if_pos hc] at hkv
      cases hkv
    · rw [if_neg hc] at hkv
      have := Option.some.inj hkv
      rw [← this]

/-- C2: the completeness score of `validate_record` is exactly
(required fields present) / (required fields total) for the record type, and
1 when the type has no required fields; in particular
`validate_record("subject", {"subject_id": "12"})` yields exactly one
warning (on `subject_id`), no errors, an empty `missing_required`, and a
completeness score of 1. The allowlist hypothesis only requires that a
supplied subject allowlist recognizes `subject_id` (or that no allowlist is
supplied, as when the schema package is unavailable). -/
theorem c2_validate_record_completeness
    (kf : String → Option (List String)) (record_type : String)
    (d : List (String × JVal))
    (hkf : kf "subject" = none ∨
      ∃ l, kf "subject" = some l ∧ l.contains "subject_id" = true) :
    ((validate_record kf record_type d).completeness_score =
      (if (required_fields_for record_type).length = 0 then (1 : ℚ)
       else ((required_fields_for record_type).countP
          (fun f => !is_absent (get_nested (.obj d) (splitDots f))) : ℚ)
          / ((required_fields_for record_type).length : ℚ))) ∧
    (required_fields_for record_type = [] →
      (validate_record kf record_type d).completeness_score = 1) ∧
    ((validate_record kf "subject" [("subject_id", .str "12")]).warnings
        = [{ field := "subject_id",
             message := "Subject ID '12' should be a numeric string with 4+ digits",
             severity := "warning" }] ∧
     (validate_record kf "subject" [("subject_id", .str "12")]).errors = [] ∧
     (validate_record kf "subject" [("subject_id", .str "12")]).missing_required = [] ∧
     (validate_record kf "subject" [("subject_id", .str "12")]).completeness_score = 1) := by
  have hrt : (validate_record kf record_type d).record_type = record_type := rfl
  have hmiss : (validate_record kf record_type d).missing_required
      = (required_fields_for record_type).filter
          (fun f => is_absent (get_nested (.obj d) (splitDots f))) := rfl
  refine ⟨?_, ?_, ?_⟩
  · rw [VResult.completeness_score, hrt, hmiss]
    by_cases h0 : (required_fields_for record_type).length = 0
    · rw [if_pos h0, if_pos h0]
    · rw [if_neg h0, if_neg h0]
      have hsum := @List.length_eq_length_filter_add _ (required_fields_for record_type)
          (fun f => is_absent (get_nested (JVal.obj d) (splitDots f)))
      have hsum' : (required_fields_for record_type).length
          = ((required_fields_for record_type).filter
              (fun f => is_absent (get_nested (JVal.obj d) (splitDots f)))).length
            + ((required_fields_for record_type).filter
              (fun f => !is_absent (get_nested (JVal.obj d) (splitDots f)))).length := by
        simpa using hsum
      rw [List.countP_eq_length_filter]
      have hq : ((required_fields_for record_type).length : ℚ)
          = (((required_fields_for record_type).filter
              (fun f => is_absent (get_nested (JVal.obj d) (splitDots f)))).length : ℚ)
            + (((required_fields_for record_type).filter
              (fun f => !is_absent (get_nested (JVal.obj d) (splitDots f)))).length : ℚ) := by
        exact_mod_cast congrArg (fun (n : ℕ) => (n : ℚ)) hsum'
      rw [hq, add_sub_cancel_left]
  · intro h
    rw [VResult.completeness_score, hrt, h]
    simp
  · have hunk : unknown_field_warnings (kf "subject") [("subject_id", JVal.str "12")] = [] := by
      rcases hkf with h | ⟨l, hl, hc⟩
      · rw [h]; rfl
      · rw [hl]
        simp only [unknown_field_warnings, List.filterMap]
        rw [if_pos hc]
    have hiss : (validate_record kf "subject" [("subject_id", JVal.str "12")]).issues
        = (subject_rules [("subject_id", JVal.str "12")]).1
          ++ unknown_field_warnings (kf "subject") [("subject_id", JVal.str "12")] := rfl
    refine ⟨?_, ?_, rfl, ?_⟩
    · rw [VResult.warnings, hiss, hunk]
      decide
    · rw [VResult.errors, hiss, hunk]
      decide
    · rw [VResult.completeness_score,
        show (validate_record kf "subject" [("subject_id", JVal.str "12")]).record_type
          = "subject" from rfl,
        show (validate_record kf "subject" [("subject_id", JVal.str "12")]).missing_required
          = [] from rfl]
      norm_num [required_fields_for]

/-- Witness for C2 at the concrete subject example, with no allowlist
supplied (the `schema_info` empty configuration). -/
theorem c2_witness :
    (validate_record (fun _ => none) "subject" [("subject_id", .str "12")]).warnings
        = [{ field := "subject_id",
             message := "Subject ID '12' should be a numeric string with 4+ digits",
             severity := "warning" }] ∧
    (validate_record (fun _ => none) "subject" [("subject_id", .str "12")]).errors = [] ∧
    (validate_record (fun _ => none) "subject" [("subject_id", .str "12")]).missing_required = [] ∧
    (validate_record (fun _ => none) "subject" [("subject_id", .str "12")]).completeness_score = 1 ∧
    (validate_record (fun _ => none) "procedures" []).completeness_score = 1 := by
  have h := c2_validate_record_completeness (fun _ => none) "procedures" []
    (Or.inl rfl)
  exact ⟨h.2.2.1, h.2.2.2.1, h.2.2.2.2.1, h.2.2.2.2.2, h.2.1 rfl⟩

theorem dropWhile_isPySpace_idem (cs : List Char) :
    (cs.dropWhile isPySpace).dropWhile isPySpace = cs.dropWhile isPySpace := by
  induction cs with
  | nil => rfl
  | cons c rest ih =>
    by_cases h : isPySpace c = true
    · rw [List.dropWhile_cons_of_pos h]
      exact ih
    · rw [List.dropWhile_cons_of_neg h, List.dropWhile_cons_of_neg h]

theorem pyStripL_dropWhile (cs : List Char) :
    pyStripL (cs.dropWhile isPySpace) = pyStripL cs := by
  rw [pyStripL, pyStripL, dropWhile_isPySpace_idem]

/-- The tokens of the claim's genotype pipeline: split, trim, discard
length ≤ 2 (parts that strip to empty are also discarded by the code's
`if part` guard, which is implied by length > 2). -/
def genoSurvivors (parts : List String) : List String :=
  (parts.map py_strip).filter (fun p => p != "" && p.length > 2)

theorem genoSurvivors_cons_pos (a : String) (rest : List String)
    (h : (py_strip a != "" && (py_strip a).length > 2) = true) :
    genoSurvivors (a :: rest) = py_strip a :: genoSurvivors rest := by
  rw [genoSurvivors, List.map_cons, List.filter_cons, if_pos h]
  rfl

theorem genoSurvivors_cons_neg (a : String) (rest : List String)
    (h : ¬ (py_strip a != "" && (py_strip a).length > 2) = true) :
    genoSurvivors (a :: rest) = genoSurvivors rest := by
  rw [genoSurvivors, List.map_cons, List.filter_cons, if_neg h]
  rfl

/-- The genotype fold from a state already holding both registries appends
each surviving trimmed token to both lists. -/
theorem geno_fold_two (parts : List String) (xs ys : List String) :
    parts.foldl (fun acc part =>
        let p := py_strip part
        if p != "" && p.length > 2 then
          q_append (q_append acc "mgi" p) "ncbi_gene" p
        else acc)
      [("mgi", xs), ("ncbi_gene", ys)]
    = [("mgi", xs ++ genoSurvivors parts), ("ncbi_gene", ys ++ genoSurvivors parts)] := by
  induction parts generalizing xs ys with
  | nil => simp [genoSurvivors]
  | cons a rest ih =>
    rw [List.foldl_cons]
    by_cases h : (py_strip a != "" && (py_strip a).length > 2) = true
    · rw [genoSurvivors_cons_pos a rest h]
      simp only [if_pos h]
      rw [show q_append (q_append [("mgi", xs), ("ncbi_gene", ys)] "mgi" (py_strip a))
            "ncbi_gene" (py_strip a)
          = [("mgi", xs ++ [py_strip a]), ("ncbi_gene", ys ++ [py_strip a])] from rfl]
      rw [ih]
      simp
    · rw [genoSurvivors_cons_neg a rest h]
      simp only [if_neg h]
      exact ih xs ys

/-- The genotype fold from the empty query dict produces both registries
with the surviving tokens, or nothing when no token survives. -/
theorem geno_fold_nil (parts : List String) :
    parts.foldl (fun acc part =>
        let p := py_strip part
        if p != "" && p.length > 2 then
          q_append (q_append acc "mgi" p) "ncbi_gene" p
        else acc) []
    = (if genoSurvivors parts = [] then []
       else [("mgi", genoSurvivors parts), ("ncbi_gene", genoSurvivors parts)]) := by
  induction parts with
  | nil => simp [genoSurvivors]
  | cons a rest ih =>
    rw [List.foldl_cons]
    by_cases h : (py_strip a != "" && (py_strip a).length > 2) = true
    · rw [genoSurvivors_cons_pos a rest h]
      simp only [if_pos h]
      rw [show q_append (q_append ([] : List (String × List String)) "mgi" (py_strip a))
            "ncbi_gene" (py_strip a)
          = [("mgi", [py_strip a]), ("ncbi_gene", [py_strip a])] from rfl]
      rw [geno_fold_two rest]
      simp
    · rw [genoSurvivors_cons_neg a rest h]
      simp only [if_neg h]
      exact ih

/-- The code's regex split (separator plus following whitespace) and the
claim's split-on-separators coincide after trimming each part. -/
theorem genoSurvivors_re_split (g : String) :
    genoSurvivors (re_split_genotype g)
      = genoSurvivors ((splitSeps g.toList).map List.asString) := by
  rw [genoSurvivors, genoSurvivors]
  congr 1
  rw [re_split_genotype]
  cases hsp : splitSeps g.toList with
  | nil => simp
  | cons h t =>
    simp only [List.map_cons, List.map_map]
    congr 1
    apply List.map_congr_left
    intro cs _
    show py_strip (List.asString (cs.dropWhile isPySpace)) = py_strip (List.asString cs)
    rw [show py_strip (List.asString (cs.dropWhile isPySpace))
        = (pyStripL (cs.dropWhile isPySpace)).asString from rfl]
    rw [show py_strip (List.asString cs) = (pyStripL cs).asString from rfl]
    rw [pyStripL_dropWhile]

/-- C8: on a genotype-bearing subject record the extracted queries are the
genotype string split on `;`, `/` or `×`, each token trimmed, tokens of
length ≤ 2 discarded, deduplicated preserving first-seen order, registered
identically under both genotype registries (`mgi`, then `ncbi_gene`); in
particular `"Ai14;Slc17a7-Cre"` yields `["Ai14", "Slc17a7-Cre"]` under
each. -/
theorem c8_extract_genotype_queries (g : String) (hg : 2 < g.length) :
    (extract_registry_queries "subject" [("genotype", JVal.str g)]
      = (if genoSurvivors ((splitSeps g.toList).map List.asString) = [] then []
         else [("mgi", dedup_first (genoSurvivors ((splitSeps g.toList).map List.asString))),
               ("ncbi_gene", dedup_first (genoSurvivors ((splitSeps g.toList).map List.asString)))])) ∧
    extract_registry_queries "subject" [("genotype", JVal.str "Ai14;Slc17a7-Cre")]
      = [("mgi", ["Ai14", "Slc17a7-Cre"]), ("ncbi_gene", ["Ai14", "Slc17a7-Cre"])] := by
  constructor
  · have hne : (g == "") = false := by
      have h0 : g ≠ "" := by
        intro he
        rw [he] at hg
        simp at hg
      simpa using h0
    have hguard : (g != "" && g.length > 2) = true := by
      rw [bne, hne]
      simpa using hg
    rw [show extract_registry_queries "subject" [("genotype", JVal.str g)]
        = ((if g != "" && g.length > 2 then
              (re_split_genotype g).foldl (fun acc part =>
                let p := py_strip part
                if p != "" && p.length > 2 then
                  q_append (q_append acc "mgi" p) "ncbi_gene" p
                else acc) []
            else []).map (fun p => (p.1, dedup_first p.2))) from rfl]
    rw [if_pos hguard, geno_fold_nil, genoSurvivors_re_split]
    by_cases hempty : genoSurvivors ((splitSeps g.toList).map List.asString) = []
    · rw [if_pos hempty, if_pos hempty]
      rfl
    · rw [if_neg hempty, if_neg hempty]
      rfl
  · decide

/-- Witness for C8: the composite genotype example, with the general token
characterization instantiated at it. -/
theorem c8_witness :
    extract_registry_queries "subject" [("genotype", JVal.str "Ai14;Slc17a7-Cre")]
      = [("mgi", ["Ai14", "Slc17a7-Cre"]), ("ncbi_gene", ["Ai14", "Slc17a7-Cre"])] ∧
    extract_registry_queries "subject" [("genotype", JVal.str "Ai14;Slc17a7-Cre")]
      = (if genoSurvivors ((splitSeps "Ai14;Slc17a7-Cre".toList).map List.asString) = [] then []
         else [("mgi", dedup_first (genoSurvivors ((splitSeps "Ai14;Slc17a7-Cre".toList).map List.asString))),
               ("ncbi_gene", dedup_first (genoSurvivors ((splitSeps "Ai14;Slc17a7-Cre".toList).map List.asString)))]) :=
  ⟨(c8_extract_genotype_queries "Ai14;Slc17a7-Cre" (by decide)).2,
   (c8_extract_genotype_queries "Ai14;Slc17a7-Cre" (by decide)).1⟩

